import Mathlib

/-!
Verification of the photostore REST API authentication and authorization
layer against its natural-language specification. The definitions below are
shallow embeddings of the JavaScript source: each Express middleware becomes
a function from a request context to an outcome, JWT verification becomes a
function over a symbolic token model, and Sequelize store access becomes
explicit state passing over lists of rows.
-/

namespace Photostore

/-! ## JSON values

Response bodies are JSON documents. We model them as a small inductive type
so that absence of a key (such as `password`) can be stated recursively. -/

inductive Json where
  | str (s : String)
  | num (n : Int)
  | nul
  | obj (fields : List (String × Json))
  | arr (elems : List Json)
deriving Repr

mutual
/-- Decide whether a JSON document mentions key `k` in any object, at any
depth. -/
def Json.hasKey : Json → String → Bool
  | .obj fs, k => Json.fieldsHaveKey fs k
  | .arr es, k => Json.elemsHaveKey es k
  | _, _ => false

def Json.fieldsHaveKey : List (String × Json) → String → Bool
  | [], _ => false
  | (k', v) :: rest, k => k' == k || Json.hasKey v k || Json.fieldsHaveKey rest k

def Json.elemsHaveKey : List Json → String → Bool
  | [], _ => false
  | e :: rest, k => Json.hasKey e k || Json.elemsHaveKey rest k
end

/-! ## JavaScript value helpers

Optional header and claim values are modelled as `Option String` or
`Option Int`, with `none` standing for `undefined`/`null`. The JS operators
`||` (falsy or) and `??` (nullish coalescing) differ on present-but-falsy
values, and the source uses both, so both are embedded. -/

/-- JS `String.prototype.toUpperCase` on the ASCII strings this API
handles. -/
def jsToUpper (s : String) : String :=
  String.mk (s.data.map Char.toUpper)

/-- JS `String.prototype.toLowerCase` on ASCII strings. -/
def jsToLower (s : String) : String :=
  String.mk (s.data.map Char.toLower)

/-- Split a character list at every occurrence of `sep`, keeping empty
groups, like the JS `split` with a one-character separator. -/
def splitCharsOn (sep : Char) : List Char → List (List Char)
  | [] => [[]]
  | c :: rest =>
    match splitCharsOn sep rest with
    | [] => if c = sep then [[], []] else [[c]]
    | g :: gs => if c = sep then [] :: g :: gs else (c :: g) :: gs

/-- JS `s.split(sep)` for a one-character separator. -/
def jsSplit (sep : Char) (s : String) : List String :=
  (splitCharsOn sep s.data).map String.mk

/-- JS `String.prototype.trim`. -/
def jsTrim (s : String) : String :=
  String.mk (((s.data.dropWhile Char.isWhitespace).reverse.dropWhile
    Char.isWhitespace).reverse)

/-- Length of a string in characters. -/
def strLen (s : String) : Nat :=
  s.data.length

/-- JS truthiness of a possibly-absent string: only `undefined`, `null` and
the empty string are falsy. -/
def jsTruthyS : Option String → Bool
  | none => false
  | some s => s ≠ ""

/-- JS truthiness of a possibly-absent number: `undefined`, `null` and `0`
are falsy. -/
def jsTruthyI : Option Int → Bool
  | none => false
  | some n => n ≠ 0

/-- JS `a || b` on possibly-absent strings. -/
def jsOrS (a b : Option String) : Option String :=
  if jsTruthyS a then a else b

/-- JS `a ?? b` on possibly-absent strings. -/
def jsNullishS (a b : Option String) : Option String :=
  match a with
  | some s => some s
  | none => b

/-- JS `a ?? b` on possibly-absent numbers. -/
def jsNullishI (a b : Option Int) : Option Int :=
  match a with
  | some n => some n
  | none => b

/-! ## Authenticated principal context

`req.user` is the decoded JWT payload attached by the auth middleware.
Downstream middleware tolerates two claim shapes: a flat `{role, custId}`
object, and a nested `{user: {role, custId}}` object. -/

/-- Inner `user` claim object of a token payload. -/
structure InnerUser where
  role : Option String := none
  custId : Option Int := none
deriving Repr, DecidableEq

/-- Shape of `req.user` as seen by the policy middlewares. -/
structure UserCtx where
  role : Option String := none
  custId : Option Int := none
  user : Option InnerUser := none
deriving Repr, DecidableEq

/-- JS `req.user?.role ?? req.user?.user?.role` (used by the staff and admin
middlewares). -/
def ctxRoleNullish (u : Option UserCtx) : Option String :=
  jsNullishS (u.bind UserCtx.role) ((u.bind UserCtx.user).bind InnerUser.role)

/-- JS `req.user?.role || req.user?.user?.role` (used by allowSelfOrRole). -/
def ctxRoleOr (u : Option UserCtx) : Option String :=
  jsOrS (u.bind UserCtx.role) ((u.bind UserCtx.user).bind InnerUser.role)

/-- JS `req.user?.custId ?? req.user?.user?.custId`. -/
def ctxCustId (u : Option UserCtx) : Option Int :=
  jsNullishI (u.bind UserCtx.custId) ((u.bind UserCtx.user).bind InnerUser.custId)

/-! ## Policy middlewares (src/middleware/staff.js, admin.js, and the
allowSelfOrRole helper of src/routes/customers.js) -/

/-- Outcome of a policy middleware: pass control on, or respond with a
status and a message body. -/
inductive PolicyResult where
  | next
  | respond (status : Nat) (msg : String)
deriving Repr, DecidableEq

/-- Embedding of the staff middleware: role must be staff or admin; 401 when
the extracted role is falsy, 403 otherwise. -/
def staffMw (u : Option UserCtx) : PolicyResult :=
  let role := ctxRoleNullish u
  if ¬ jsTruthyS role then .respond 401 "Unauthenticated: user missing"
  else if role = some "staff" ∨ role = some "admin" then .next
  else .respond 403 "Staff or admin only"

/-- Embedding of the admin middleware: role must be exactly admin; same
401/403 split as the staff middleware. -/
def adminMw (u : Option UserCtx) : PolicyResult :=
  let role := ctxRoleNullish u
  if ¬ jsTruthyS role then .respond 401 "Unauthenticated: user missing"
  else if role ≠ some "admin" then .respond 403 "Access denied"
  else .next

/-- Embedding of `toId`: `Number(v)` is modelled as an `Option Int` (with
`none` for NaN or a non-integer); the result is the value when it is a
positive integer, else `null`. -/
def toId (v : Option Int) : Option Int :=
  match v with
  | some n => if 0 < n then some n else none
  | none => none

/-- Embedding of `allowSelfOrRole(...roles)` from the customers router:
allow when the positive-integer id parameter equals the truthy custId claim,
or when the truthy role claim is in the allowed list; else 403 Forbidden. -/
def allowSelfOrRole (roles : List String) (u : Option UserCtx)
    (idParam : Option Int) : PolicyResult :=
  let reqId := toId idParam
  let role := ctxRoleOr u
  let custId := ctxCustId u
  if jsTruthyI reqId && jsTruthyI custId && reqId == custId then .next
  else if jsTruthyS role && (match role with
      | some r => roles.contains r
      | none => false) then .next
  else .respond 403 "Forbidden"

/-! ## Token verification middleware (src/middleware/auth.js)

A JWT on the wire is a string. We model its parsed form symbolically: a
well-formed token records the algorithm named in its header, the key its
producer signed it with (HMAC signature validity under a secret is exactly
agreement of algorithm and key), and its claim set. A string that is not a
well-formed JWT parses to `malformed`. -/

/-- Claim set of a decoded token. `user` is the embedded user claim of
current tokens; `role`/`custId` are the flat legacy shape. -/
structure JwtClaims where
  iss : Option String := none
  aud : Option String := none
  exp : Option Int := none
  user : Option InnerUser := none
  role : Option String := none
  custId : Option Int := none
deriving Repr, DecidableEq

/-- Symbolic parse of a presented credential string. -/
inductive Cred where
  | malformed
  | signed (alg : String) (key : String) (claims : JwtClaims)
deriving Repr, DecidableEq

/-- Verification errors raised by the jsonwebtoken library; the middleware
collapses them all into one generic 401. -/
inductive VerifyError where
  | notJwt
  | badAlg
  | badSignature
  | expired
  | badIssuer
  | badAudience
deriving Repr, DecidableEq

/-- Embedding of `jwt.verify(token, secret, {issuer, audience,
algorithms: [HS512]})`: the header algorithm must be in the allowed list,
the signature must verify under `secret`, the token must not be expired at
`now` (seconds), and when an expected issuer or audience is configured the
corresponding claim must match it. -/
def jwtVerify (cred : Cred) (secret : String) (issuerOpt audOpt : Option String)
    (now : Int) : Except VerifyError JwtClaims :=
  match cred with
  | .malformed => .error .notJwt
  | .signed alg key claims =>
    if ¬ ["HS512"].contains alg then .error .badAlg
    else if key ≠ secret then .error .badSignature
    else if (match claims.exp with
        | some e => decide (e ≤ now)
        | none => false) then .error .expired
    else if (match issuerOpt with
        | some i => decide (claims.iss ≠ some i)
        | none => false) then .error .badIssuer
    else if (match audOpt with
        | some a => decide (claims.aud ≠ some a)
        | none => false) then .error .badAudience
    else .ok claims

/-- Environment variables read by the middleware and by the token issuer. -/
structure Env where
  JWT_SECRET : Option String := none
  JWT_ISSUER : Option String := none
  JWT_AUDIENCE : Option String := none
deriving Repr, DecidableEq

/-- Effective verification secret:
`config.auth?.jwtSecret || process.env.JWT_SECRET || dev_secret_change_me`,
where `config.auth.jwtSecret` is itself `process.env.JWT_SECRET`. -/
def effSecret (env : Env) : String :=
  match env.JWT_SECRET with
  | some s => if s ≠ "" then s else "dev_secret_change_me"
  | none => "dev_secret_change_me"

/-- JS `process.env.X || undefined`: a set, non-empty variable; otherwise
absent. -/
def envOr (v : Option String) : Option String :=
  if jsTruthyS v then v else none

/-- Headers of an incoming request that the auth middleware reads. -/
structure AuthReq where
  authorization : Option String := none
  xAuthToken : Option String := none
deriving Repr, DecidableEq

/-- JS `(req.headers.authorization || '').split(' ')`. -/
def bearerParts (r : AuthReq) : List String :=
  jsSplit ' ' (r.authorization.getD "")

/-- First destructured element `scheme` of the split authorization header. -/
def schemeOf (r : AuthReq) : Option String :=
  (bearerParts r).get? 0

/-- Second destructured element `bearerToken` of the split header. -/
def rawBearer (r : AuthReq) : Option String :=
  (bearerParts r).get? 1

/-- Embedding of the token selection:
`(scheme === Bearer && bearerToken) ? bearerToken : headerToken`. -/
def tokenOf (r : AuthReq) : Option String :=
  if schemeOf r == some "Bearer" && jsTruthyS (rawBearer r) then rawBearer r
  else r.xAuthToken

/-- Value attached to `req.user` on success: `decoded.user || decoded`
(an object claim is always truthy). -/
def reqUserOf (c : JwtClaims) : UserCtx :=
  match c.user with
  | some inner => { role := inner.role, custId := inner.custId, user := none }
  | none => { role := c.role, custId := c.custId, user := none }

/-- Outcome of the auth middleware. -/
inductive AuthOut where
  | next (user : UserCtx)
  | respond (status : Nat) (body : Json)
deriving Repr

/-- Body of the missing-token 401 response. -/
def noTokenBody : Json :=
  .obj [("msg", .str "No token supplied, authorization denied")]

/-- Body of the generic invalid-token 401 response; it carries no
information about the verification error. -/
def invalidTokenBody : Json :=
  .obj [("msg", .str "Token is not valid")]

/-- Embedding of the auth middleware of src/middleware/auth.js. `parse`
is the symbolic JWT wire decoding of a token string. -/
def authMw (env : Env) (parse : String → Cred) (r : AuthReq) (now : Int) :
    AuthOut :=
  let token := tokenOf r
  if ¬ jsTruthyS token then .respond 401 noTokenBody
  else
    match token with
    | none => .respond 401 noTokenBody
    | some t =>
      match jwtVerify (parse t) (effSecret env) (envOr env.JWT_ISSUER)
          (envOr env.JWT_AUDIENCE) now with
      | .ok claims => .next (reqUserOf claims)
      | .error _ => .respond 401 invalidTokenBody

/-! ## Token issuance (src/routes/auth.js)

`signToken` signs with HS512 under `process.env.JWT_SECRET ||
dev_secret_change_me`, with issuer, audience, expiry, a fresh jti and a
subject string. The produced token is modelled as a record of what was
signed. -/

/-- The embedded `user` claim object placed in issued tokens and returned
in register and login response bodies. -/
structure TokenUser where
  custId : Option Int := none
  staffId : Option Int := none
  adminId : Option Int := none
  name : String := ""
  email : String := ""
  role : String := ""
deriving Repr, DecidableEq

/-- A token as produced by `jwt.sign`: algorithm, signing key, and claim
set. -/
structure IssuedToken where
  alg : String
  key : String
  user : TokenUser
  iss : String
  aud : String
  exp : Int
  jti : String
  sub : Option String
deriving Repr, DecidableEq

/-- JS `process.env.JWT_SECRET || dev_secret_change_me` as read at the top
of src/routes/auth.js. -/
def routeJwtSecret (env : Env) : String :=
  match env.JWT_SECRET with
  | some s => if s ≠ "" then s else "dev_secret_change_me"
  | none => "dev_secret_change_me"

/-- JS `process.env.JWT_ISSUER || photostore-api`. -/
def routeJwtIssuer (env : Env) : String :=
  match env.JWT_ISSUER with
  | some s => if s ≠ "" then s else "photostore-api"
  | none => "photostore-api"

/-- JS `process.env.JWT_AUDIENCE || photostore-users`. -/
def routeJwtAudience (env : Env) : String :=
  match env.JWT_AUDIENCE with
  | some s => if s ≠ "" then s else "photostore-users"
  | none => "photostore-users"

/-- Token TTL in seconds: `process.env.JWT_EXPIRES_IN || 7d` (7 days is
604800 seconds); a configured duration string is modelled by its value in
seconds. -/
def routeJwtTtl (ttlEnv : Option Int) : Int :=
  match ttlEnv with
  | some t => t
  | none => 604800

/-- Embedding of `signToken(payload, {subject})`: always produces a signed
token; when the secret is unset it silently signs with the hardcoded
default. `jti` stands for the fresh uuid of this call and `now` for the
issuance time in seconds. -/
def signToken (env : Env) (ttlEnv : Option Int) (user : TokenUser)
    (subject : Option String) (jti : String) (now : Int) : IssuedToken :=
  { alg := "HS512"
  , key := routeJwtSecret env
  , user := user
  , iss := routeJwtIssuer env
  , aud := routeJwtAudience env
  , exp := now + routeJwtTtl ttlEnv
  , jti := jti
  , sub := subject }

/-! ## Credential store (src/models/index.js)

Three principal tables plus helpers. Auto-increment ids are modelled as
one more than the largest existing id. -/

structure CustomerRow where
  custId : Int
  name : String
  email : String
  password : String
  role : String
  address : Option String := none
  phone : Option String := none
deriving Repr, DecidableEq

structure StaffRow where
  staffId : Int
  name : String
  email : String
  password : String
  role : String
deriving Repr, DecidableEq

structure AdminRow where
  adminId : Int
  name : String
  email : String
  password : String
  role : String
deriving Repr, DecidableEq

structure Store where
  customers : List CustomerRow := []
  staffs : List StaffRow := []
  admins : List AdminRow := []
deriving Repr, DecidableEq

/-- `Customer.findOne({where: {email}})`. -/
def findCustomerByEmail (s : Store) (e : String) : Option CustomerRow :=
  s.customers.find? (fun c => c.email == e)

/-- `Staff.findOne({where: {email}})`. -/
def findStaffByEmail (s : Store) (e : String) : Option StaffRow :=
  s.staffs.find? (fun c => c.email == e)

/-- `Admin.findOne({where: {email}})`. -/
def findAdminByEmail (s : Store) (e : String) : Option AdminRow :=
  s.admins.find? (fun c => c.email == e)

/-- Next auto-increment customer id. -/
def nextCustId (s : Store) : Int :=
  (s.customers.map CustomerRow.custId).foldr max 0 + 1

/-- Next auto-increment staff id. -/
def nextStaffId (s : Store) : Int :=
  (s.staffs.map StaffRow.staffId).foldr max 0 + 1

/-- Next auto-increment admin id. -/
def nextAdminId (s : Store) : Int :=
  (s.admins.map AdminRow.adminId).foldr max 0 + 1

/-! ## Response bodies -/

structure Resp where
  status : Nat
  body : Json
deriving Repr

def optStrJson : Option String → Json
  | none => .nul
  | some s => .str s

def optIntJson : Option Int → Json
  | none => .nul
  | some n => .num n

/-- JSON rendering of the token user object. -/
def tokenUserJson (u : TokenUser) : Json :=
  .obj [("custId", optIntJson u.custId), ("staffId", optIntJson u.staffId),
        ("adminId", optIntJson u.adminId), ("name", .str u.name),
        ("email", .str u.email), ("role", .str u.role)]

def invalidCredentialsBody : Json :=
  .obj [("errors", .arr [.obj [("msg", .str "Invalid Credentials")]])]

def userAlreadyRegisteredBody : Json :=
  .obj [("errors", .arr [.obj [("msg", .str "User already registered")]])]

def adminAlreadyRegisteredBody : Json :=
  .obj [("errors", .arr [.obj [("msg", .str "Admin already registered")]])]

/-- Body of a 201/200 auth response: `{token, user}`. `enc` renders the
signed token to its wire string. -/
def authSuccessBody (enc : IssuedToken → String) (tok : IssuedToken)
    (user : TokenUser) : Json :=
  .obj [("token", .str (enc tok)), ("user", tokenUserJson user)]

/-! ## Auth route handlers (src/routes/auth.js)

Each handler receives its body already validated; `hash` is bcrypt.hash,
`compare` is bcrypt.compare, `jti` the fresh uuid, `now` the issuance
time. -/

/-- POST /customer/register handler. -/
def registerCustomer (env : Env) (ttlEnv : Option Int)
    (enc : IssuedToken → String) (jti : String) (now : Int)
    (hash : String → String) (s : Store) (name email : String)
    (address phone : Option String) (password : String) : Resp × Store :=
  match findCustomerByEmail s email with
  | some _ => ({ status := 409, body := userAlreadyRegisteredBody }, s)
  | none =>
    let hashed := hash password
    let cid := nextCustId s
    let row : CustomerRow :=
      { custId := cid, name := name, email := email, password := hashed
      , role := "customer", address := address, phone := phone }
    let user : TokenUser :=
      { custId := some cid, name := name, email := email, role := "customer" }
    let tok := signToken env ttlEnv user (some (toString cid)) jti now
    ({ status := 201, body := authSuccessBody enc tok user },
     { s with customers := s.customers ++ [row] })

/-- POST /customer/login handler. -/
def loginCustomer (env : Env) (ttlEnv : Option Int)
    (enc : IssuedToken → String) (jti : String) (now : Int)
    (compare : String → String → Bool) (s : Store)
    (email password : String) : Resp :=
  match findCustomerByEmail s email with
  | none => { status := 400, body := invalidCredentialsBody }
  | some c =>
    if ¬ compare password c.password then
      { status := 400, body := invalidCredentialsBody }
    else
      let user : TokenUser :=
        { custId := some c.custId, name := c.name, email := c.email
        , role := if c.role ≠ "" then c.role else "customer" }
      let tok := signToken env ttlEnv user (some (toString c.custId)) jti now
      { status := 200, body := authSuccessBody enc tok user }

/-- POST /staff/register handler. -/
def registerStaff (env : Env) (ttlEnv : Option Int)
    (enc : IssuedToken → String) (jti : String) (now : Int)
    (hash : String → String) (s : Store) (name email password : String) :
    Resp × Store :=
  match findStaffByEmail s email with
  | some _ => ({ status := 409, body := userAlreadyRegisteredBody }, s)
  | none =>
    let hashed := hash password
    let sid := nextStaffId s
    let row : StaffRow :=
      { staffId := sid, name := name, email := email, password := hashed
      , role := "staff" }
    let user : TokenUser :=
      { staffId := some sid, name := name, email := email, role := "staff" }
    let tok := signToken env ttlEnv user (some (toString sid)) jti now
    ({ status := 201, body := authSuccessBody enc tok user },
     { s with staffs := s.staffs ++ [row] })

/-- POST /staff/login handler. -/
def loginStaff (env : Env) (ttlEnv : Option Int)
    (enc : IssuedToken → String) (jti : String) (now : Int)
    (compare : String → String → Bool) (s : Store)
    (email password : String) : Resp :=
  match findStaffByEmail s email with
  | none => { status := 400, body := invalidCredentialsBody }
  | some st =>
    if ¬ compare password st.password then
      { status := 400, body := invalidCredentialsBody }
    else
      let user : TokenUser :=
        { staffId := some st.staffId, name := st.name, email := st.email
        , role := "staff" }
      let tok := signToken env ttlEnv user (some (toString st.staffId)) jti now
      { status := 200, body := authSuccessBody enc tok user }

/-- POST /admin/register handler. -/
def registerAdmin (env : Env) (ttlEnv : Option Int)
    (enc : IssuedToken → String) (jti : String) (now : Int)
    (hash : String → String) (s : Store) (name email password : String) :
    Resp × Store :=
  match findAdminByEmail s email with
  | some _ => ({ status := 409, body := adminAlreadyRegisteredBody }, s)
  | none =>
    let hashed := hash password
    let aid := nextAdminId s
    let row : AdminRow :=
      { adminId := aid, name := name, email := email, password := hashed
      , role := "admin" }
    let user : TokenUser :=
      { adminId := some aid, name := name, email := email, role := "admin" }
    let tok := signToken env ttlEnv user (some (toString aid)) jti now
    ({ status := 201, body := authSuccessBody enc tok user },
     { s with admins := s.admins ++ [row] })

/-- POST /admin/login handler. -/
def loginAdmin (env : Env) (ttlEnv : Option Int)
    (enc : IssuedToken → String) (jti : String) (now : Int)
    (compare : String → String → Bool) (s : Store)
    (email password : String) : Resp :=
  match findAdminByEmail s email with
  | none => { status := 400, body := invalidCredentialsBody }
  | some a =>
    if ¬ compare password a.password then
      { status := 400, body := invalidCredentialsBody }
    else
      let user : TokenUser :=
        { adminId := some a.adminId, name := a.name, email := a.email
        , role := if a.role ≠ "" then a.role else "admin" }
      let tok := signToken env ttlEnv user (some (toString a.adminId)) jti now
      { status := 200, body := authSuccessBody enc tok user }

/-! ## Customers router handlers (src/routes/customers.js)

Every read path fetches with `attributes: {exclude: [password]}`, and the
create path deletes the password key from the serialized row before
responding. -/

/-- Serialization of a customer row with the password attribute excluded. -/
def customerPublicJson (c : CustomerRow) : Json :=
  .obj [("custId", .num c.custId), ("name", .str c.name),
        ("email", .str c.email), ("role", .str c.role),
        ("address", optStrJson c.address), ("phone", optStrJson c.phone)]

def invalidIdBody : Json := .obj [("msg", .str "Invalid id")]
def customerNotFoundBody : Json := .obj [("msg", .str "Customer not found")]
def emailAlreadyRegisteredBody : Json := .obj [("msg", .str "Email already registered")]

/-- Stable insertion into a custId-sorted list. -/
def insertByCustId (c : CustomerRow) : List CustomerRow → List CustomerRow
  | [] => [c]
  | d :: rest =>
    if c.custId ≤ d.custId then c :: d :: rest else d :: insertByCustId c rest

/-- `order: [[custId, ASC]]`. -/
def sortByCustId : List CustomerRow → List CustomerRow
  | [] => []
  | c :: rest => insertByCustId c (sortByCustId rest)

/-- GET / — list all customers without the password attribute. -/
def customersListHandler (s : Store) : Resp :=
  { status := 200, body := .arr ((sortByCustId s.customers).map customerPublicJson) }

/-- GET /:id — fetch one customer without the password attribute. -/
def customersGetHandler (s : Store) (idParam : Option Int) : Resp :=
  match toId idParam with
  | none => { status := 400, body := invalidIdBody }
  | some id =>
    match s.customers.find? (fun c => c.custId == id) with
    | none => { status := 404, body := customerNotFoundBody }
    | some c => { status := 200, body := customerPublicJson c }

/-- POST / — staff-created customer; the serialized created row has its
password key deleted before it is returned. -/
def customersCreateHandler (hash : String → String) (s : Store)
    (name email : String) (address phone : Option String)
    (password : String) : Resp × Store :=
  match findCustomerByEmail s email with
  | some _ => ({ status := 409, body := emailAlreadyRegisteredBody }, s)
  | none =>
    let row : CustomerRow :=
      { custId := nextCustId s, name := name, email := email
      , password := hash password, role := "customer"
      , address := address, phone := phone }
    ({ status := 201, body := customerPublicJson row },
     { s with customers := s.customers ++ [row] })

/-- Partial update body accepted by PUT /:id (already validated). -/
structure CustomerPatch where
  name : Option String := none
  email : Option String := none
  address : Option String := none
  phone : Option String := none
  password : Option String := none
deriving Repr, DecidableEq

/-- Apply an update object to a row, Sequelize `Customer.update` style. -/
def applyPatch (p : CustomerPatch) (c : CustomerRow) : CustomerRow :=
  { c with
    name := p.name.getD c.name
  , email := p.email.getD c.email
  , address := (match p.address with | some a => some a | none => c.address)
  , phone := (match p.phone with | some ph => some ph | none => c.phone)
  , password := p.password.getD c.password }

/-- JS `if (value.password) value.password = await bcrypt.hash(...)`: the
update object with a truthy password replaced by its hash. -/
def hashPatch (hash : String → String) (p : CustomerPatch) : CustomerPatch :=
  match p.password with
  | some pw => if pw ≠ "" then { p with password := some (hash pw) } else p
  | none => p

/-- `Customer.update(value, {where: {custId: id}})` applied to the customer
table. -/
def updCustomers (hash : String → String) (s : Store) (id : Int)
    (p : CustomerPatch) : List CustomerRow :=
  s.customers.map (fun c =>
    if c.custId == id then applyPatch (hashPatch hash p) c else c)

/-- PUT /:id — re-hash a truthy incoming password, update the row, then
fetch it back without the password attribute. -/
def customersUpdateHandler (hash : String → String) (s : Store)
    (idParam : Option Int) (p : CustomerPatch) : Resp × Store :=
  match toId idParam with
  | none => ({ status := 400, body := invalidIdBody }, s)
  | some id =>
    if s.customers.all (fun c => c.custId ≠ id) then
      ({ status := 404, body := customerNotFoundBody }, s)
    else
      match (updCustomers hash s id p).find? (fun c => c.custId == id) with
      | some fresh =>
        ({ status := 200, body := customerPublicJson fresh },
         { s with customers := updCustomers hash s id p })
      | none =>
        ({ status := 200, body := Json.nul },
         { s with customers := updCustomers hash s id p })

/-- DELETE /:id — admin-only delete. -/
def customersDeleteHandler (s : Store) (idParam : Option Int) : Resp × Store :=
  match toId idParam with
  | none => ({ status := 400, body := invalidIdBody }, s)
  | some id =>
    if s.customers.all (fun c => c.custId ≠ id) then
      ({ status := 404, body := customerNotFoundBody }, s)
    else
      ({ status := 204, body := Json.nul },
       { s with customers := s.customers.filter (fun c => c.custId ≠ id) })

/-! ## Validation module (src/validation/validation.js)

Joi schemas for registration bodies and sort parameters. A request body is
an association list of string fields; `stripUnknown: true` means only the
keys a schema declares can reach a handler. The 400 body lists per-field
details, which no claim depends on; they are rendered as an empty list
here. -/

/-- A raw JSON request body, as key/value pairs of strings. -/
def RawBody := List (String × String)

/-- First binding of key `k` in a body. -/
def lookupB (b : RawBody) (k : String) : Option String :=
  (b.find? (fun kv => kv.1 == k)).map (fun kv => kv.2)

def validationFailedBody : Json :=
  .obj [("msg", .str "Validation failed"), ("details", .arr [])]

/-- Joi `name`: trimmed, between 2 and 60 characters. -/
def nameOk (s : String) : Bool :=
  2 ≤ strLen (jsTrim s) && strLen (jsTrim s) ≤ 60

/-- Characters the strong-password pattern accepts as specials. -/
def isSpecialChar (c : Char) : Bool :=
  c == '!' || c == '@' || c == '#' || c == '$' || c == '%' ||
  c == '^' || c == '&' || c == '*'

/-- Character class of the strong-password pattern. -/
def isPwdChar (c : Char) : Bool :=
  c.isAlpha || c.isDigit || isSpecialChar c

/-- Joi `strongPassword`: 8 to 128 characters, matching the pattern
requiring a lower, an upper, a digit and a special, all drawn from the
allowed class. -/
def strongPasswordOk (s : String) : Bool :=
  8 ≤ strLen s && strLen s ≤ 128 &&
  s.data.any Char.isLower && s.data.any Char.isUpper &&
  s.data.any Char.isDigit && s.data.any isSpecialChar &&
  s.data.all isPwdChar

/-- Joi `email`: trimmed, at most 254 characters, and passing the internal
email format test, which is treated as a Boolean parameter `emailFmt`. -/
def emailFieldOk (emailFmt : String → Bool) (s : String) : Bool :=
  emailFmt (jsTrim s) && strLen (jsTrim s) ≤ 254

/-- Joi address field, which allows empty and null: absent or empty is
accepted, else the trimmed length is at most 120. -/
def addressFieldOk : Option String → Bool
  | none => true
  | some v => v == "" || strLen (jsTrim v) ≤ 120

/-- Joi phone field, which allows empty and null: absent or empty is
accepted, else the trimmed length is at most 40. -/
def phoneFieldOk : Option String → Bool
  | none => true
  | some v => v == "" || strLen (jsTrim v) ≤ 40

/-- Joi convert of a trimmed optional field that allows the empty string. -/
def convTrimOpt : Option String → Option String
  | none => none
  | some v => if v == "" then some "" else some (jsTrim v)

/-- Email normalization done by the `validate` middleware after a
successful schema check: trim and lowercase. -/
def normalizeEmail (e : String) : String :=
  jsToLower (jsTrim e)

/-- Validated customer-registration value. -/
structure RegValue where
  name : String
  email : String
  password : String
  address : Option String := none
  phone : Option String := none
deriving Repr, DecidableEq

/-- `validate(schemas.authCustomerRegister)`: strip unknown keys, require
name, email and password, check every declared field, convert trimmed
values and normalize the email. Returns `none` exactly when the request is
answered 400. -/
def validateCustomerRegister (emailFmt : String → Bool) (b : RawBody) :
    Option RegValue :=
  match lookupB b "name", lookupB b "email", lookupB b "password" with
  | some n, some e, some p =>
    if nameOk n && emailFieldOk emailFmt e && strongPasswordOk p &&
        addressFieldOk (lookupB b "address") && phoneFieldOk (lookupB b "phone") then
      some { name := n.trim, email := normalizeEmail e, password := p
           , address := convTrimOpt (lookupB b "address")
           , phone := convTrimOpt (lookupB b "phone") }
    else none
  | _, _, _ => none

/-- POST /auth/customer/register, validation middleware composed with the
handler. -/
def registerCustomerRoute (env : Env) (ttlEnv : Option Int)
    (enc : IssuedToken → String) (jti : String) (now : Int)
    (hash : String → String) (emailFmt : String → Bool) (s : Store)
    (b : RawBody) : Resp × Store :=
  match validateCustomerRegister emailFmt b with
  | none => ({ status := 400, body := validationFailedBody }, s)
  | some v =>
    registerCustomer env ttlEnv enc jti now hash s v.name v.email
      v.address v.phone v.password

/-! ## Sort routes (src/routes/orders.js and src/routes/products.js)

Both routers validate `/o/:field/:dir` and `/sort/two/:first/:second`
params with `schemas.orderSortParams` and `schemas.orderTwoSortParams`:
the field must be in the orders allow-list and the direction an
insensitive match of ASC or DESC. The products router reuses the orders
schemas verbatim. -/

/-- Allow-list of `schemas.orderSortParams`. -/
def orderSortFields : List String :=
  ["orderId", "total", "status", "createdAt"]

/-- Joi `sortDir`: insensitive valid of ASC or DESC. -/
def sortDirOk (s : String) : Bool :=
  jsToUpper s == "ASC" || jsToUpper s == "DESC"

/-- `schemas.orderSortParams` check on a `/o/:field/:dir` request. -/
def orderSortParamsOk (field dir : String) : Bool :=
  orderSortFields.contains field && sortDirOk dir

/-- `schemas.orderTwoSortParams` check. -/
def orderTwoSortParamsOk (first second : String) : Bool :=
  orderSortFields.contains first && orderSortFields.contains second

/-- Outcome of a sort route: a 400 validation error before any query, or a
query ordered by the given column and direction. -/
inductive SortOutcome where
  | validationError
  | query (field : String) (direction : String)
deriving Repr, DecidableEq

/-- Outcome of a two-field sort route. -/
inductive TwoSortOutcome where
  | validationError
  | query (first : String) (dir1 : String) (second : String) (dir2 : String)
deriving Repr, DecidableEq

/-- GET /orders/o/:field/:dir after auth and staff checks: validate
against the orders schema, then normalize the direction and query. Joi
conversion canonicalizes the insensitive direction to upper case before
the handler sees it. -/
def ordersSortRoute (field dir : String) : SortOutcome :=
  if ¬ orderSortParamsOk field dir then .validationError
  else
    let canon := jsToUpper dir
    .query field (if canon == "DESC" then "DESC" else "ASC")

/-- GET /products/o/:field/:dir: the products router validates its params
with the same `schemas.orderSortParams` as the orders router. -/
def productsSortRoute (field dir : String) : SortOutcome :=
  if ¬ orderSortParamsOk field dir then .validationError
  else
    let canon := jsToUpper dir
    .query field (if canon == "DESC" then "DESC" else "ASC")

/-- GET /orders/sort/two/:first/:second. -/
def ordersTwoSortRoute (first second : String) : TwoSortOutcome :=
  if ¬ orderTwoSortParamsOk first second then .validationError
  else .query first "ASC" second "ASC"

/-- GET /products/sort/two/:first/:second, again validated with
`schemas.orderTwoSortParams`. -/
def productsTwoSortRoute (first second : String) : TwoSortOutcome :=
  if ¬ orderTwoSortParamsOk first second then .validationError
  else .query first "ASC" second "ASC"

/-- Columns of the Product table (model fields plus the automatic
timestamps). -/
def productColumns : List String :=
  ["prodId", "name", "price", "stock", "createdAt", "updatedAt"]

/-- Modelled from the spec: the spec prescribes an analogous product-field
allow-list for the product sort routes; no such list exists anywhere in
the source, whose products router reuses the orders allow-list instead. -/
def specProductSortFields : List String :=
  ["prodId", "name", "price", "stock", "createdAt"]

/-! ## Theorems -/

/-- C3: the staff middleware allows exactly the roles staff and admin and
the admin middleware allows exactly admin; both respond 401 when the
extracted role (flat or nested claim shape) is absent, and 403 for any
other present role. -/
theorem staff_admin_policy_characterization :
    ∀ u : Option UserCtx,
      ((ctxRoleNullish u = none ∨ ctxRoleNullish u = some "") →
        staffMw u = .respond 401 "Unauthenticated: user missing" ∧
        adminMw u = .respond 401 "Unauthenticated: user missing") ∧
      (∀ r : String, ctxRoleNullish u = some r → r ≠ "" →
        (staffMw u = .next ↔ (r = "staff" ∨ r = "admin")) ∧
        (r ≠ "staff" → r ≠ "admin" →
          staffMw u = .respond 403 "Staff or admin only") ∧
        (adminMw u = .next ↔ r = "admin") ∧
        (r ≠ "admin" → adminMw u = .respond 403 "Access denied")) := by
  intro u
  constructor
  · rintro (h | h) <;> simp [staffMw, adminMw, h, jsTruthyS]
  · intro r hr hne
    refine ⟨?_, ?_, ?_, ?_⟩
    · by_cases hsa : r = "staff" ∨ r = "admin" <;>
        simp [staffMw, hr, jsTruthyS, hne, hsa]
    · intro h1 h2
      simp [staffMw, hr, jsTruthyS, hne, h1, h2]
    · by_cases ha : r = "admin" <;>
        simp [adminMw, hr, jsTruthyS, hne, ha]
    · intro h1
      simp [adminMw, hr, jsTruthyS, hne, h1]

/-- Witness for C3 at a concrete staff principal. -/
theorem staff_admin_policy_characterization_witness :
    staffMw (some { role := some "staff", custId := none, user := none })
      = .next :=
  (((staff_admin_policy_characterization
      (some { role := some "staff", custId := none, user := none })).2
    "staff" rfl (by decide)).1).mpr (Or.inl rfl)

/-- Self-access: a matching positive custId claim passes allowSelfOrRole
regardless of role. -/
lemma allowSelfOrRole_next_of_self (roles : List String) (u : Option UserCtx)
    (n : Int) (hn : 0 < n) (hc : ctxCustId u = some n) :
    allowSelfOrRole roles u (some n) = .next := by
  have hn0 : n ≠ 0 := by omega
  simp [allowSelfOrRole, toId, hn, hc, jsTruthyI, hn0]

/-- Role grant: a truthy role in the allowed list passes allowSelfOrRole,
whatever the custId claim holds (including no custId at all). -/
lemma allowSelfOrRole_next_of_role (roles : List String) (u : Option UserCtx)
    (n : Int) (hn : 0 < n) (r : String) (hr : ctxRoleOr u = some r)
    (hrne : r ≠ "") (hin : r ∈ roles) :
    allowSelfOrRole roles u (some n) = .next := by
  have hn0 : n ≠ 0 := by omega
  rcases hc : ctxCustId u with _ | c
  · simp [allowSelfOrRole, toId, hn, hc, hr, hrne, hin, jsTruthyI, jsTruthyS,
      hn0]
  · by_cases hcn : c = n
    · subst hcn
      simp [allowSelfOrRole, toId, hn, hc, jsTruthyI, hn0]
    · have hnc : ¬ n = c := fun h => hcn h.symm
      simp [allowSelfOrRole, toId, hn, hc, hr, hrne, hin, jsTruthyI,
        jsTruthyS, hn0, hnc]

/-- Denial: with neither a matching custId claim nor an allowed truthy
role, allowSelfOrRole responds 403 Forbidden. -/
lemma allowSelfOrRole_forbidden (roles : List String) (u : Option UserCtx)
    (n : Int) (hn : 0 < n) (hc : ctxCustId u ≠ some n)
    (hno : ¬ ∃ r, ctxRoleOr u = some r ∧ r ≠ "" ∧ r ∈ roles) :
    allowSelfOrRole roles u (some n) = .respond 403 "Forbidden" := by
  have hn0 : n ≠ 0 := by omega
  push_neg at hno
  have hrolefalse : (jsTruthyS (ctxRoleOr u) && (match ctxRoleOr u with
      | some r => roles.contains r
      | none => false)) = false := by
    rcases hr : ctxRoleOr u with _ | r
    · simp [jsTruthyS]
    · by_cases hrne : r = ""
      · subst hrne
        simp [jsTruthyS]
      · have hni := hno r hr hrne
        simp [jsTruthyS, hrne, hni]
  rcases hcc : ctxCustId u with _ | c
  · simp only [allowSelfOrRole, hcc, hrolefalse]
    simp [jsTruthyI]
  · have hnc : ¬ n = c := by
      intro h
      exact hc (by rw [hcc, h])
    simp only [allowSelfOrRole, hcc, hrolefalse]
    simp [toId, hn, jsTruthyI, hn0, hnc]

/-- C2: on a selfOrRole-protected route with a positive integer id
parameter, the middleware passes control exactly when the principal custId
claim (read from either claim shape, and possibly absent) equals the id
parameter or the extracted role is a nonempty member of the allowed list;
in every other case — wrong id, excluded or missing role, or no custId
claim at all — it responds 403 Forbidden. -/
theorem allowSelfOrRole_characterization :
    ∀ (roles : List String) (u : Option UserCtx) (n : Int),
      0 < n →
      (allowSelfOrRole roles u (some n) = .next ↔
        (ctxCustId u = some n ∨
          ∃ r, ctxRoleOr u = some r ∧ r ≠ "" ∧ r ∈ roles)) ∧
      (allowSelfOrRole roles u (some n) ≠ .next →
        allowSelfOrRole roles u (some n) = .respond 403 "Forbidden") := by
  intro roles u n hn
  constructor
  · constructor
    · intro hnext
      by_contra hcon
      rw [not_or] at hcon
      rw [allowSelfOrRole_forbidden roles u n hn hcon.1 hcon.2] at hnext
      cases hnext
    · rintro (hc | ⟨r, hr, hrne, hin⟩)
      · exact allowSelfOrRole_next_of_self roles u n hn hc
      · exact allowSelfOrRole_next_of_role roles u n hn r hr hrne hin
  · intro hne
    by_cases hAB : ctxCustId u = some n ∨
        ∃ r, ctxRoleOr u = some r ∧ r ≠ "" ∧ r ∈ roles
    · exfalso
      rcases hAB with hc | ⟨r, hr, hrne, hin⟩
      · exact hne (allowSelfOrRole_next_of_self roles u n hn hc)
      · exact hne (allowSelfOrRole_next_of_role roles u n hn r hr hrne hin)
    · rw [not_or] at hAB
      exact allowSelfOrRole_forbidden roles u n hn hAB.1 hAB.2

/-- Witness for C2: a customer with custId 5 and an excluded role reaches
its own record and is refused on another one, while a staff principal
whose token carries no custId claim is let through by role. -/
theorem allowSelfOrRole_characterization_witness :
    allowSelfOrRole ["staff", "admin"]
      (some { role := some "customer", custId := some 5, user := none })
      (some 5) = .next ∧
    allowSelfOrRole ["staff", "admin"]
      (some { role := some "customer", custId := some 5, user := none })
      (some 7) = .respond 403 "Forbidden" ∧
    allowSelfOrRole ["staff", "admin"]
      (some { role := some "staff", custId := none, user := none })
      (some 7) = .next := by
  refine ⟨?_, ?_, ?_⟩
  · exact (allowSelfOrRole_characterization ["staff", "admin"]
      (some { role := some "customer", custId := some 5, user := none })
      5 (by decide)).1.mpr (Or.inl (by decide))
  · have h := allowSelfOrRole_characterization ["staff", "admin"]
      (some { role := some "customer", custId := some 5, user := none })
      7 (by decide)
    apply h.2
    intro hnext
    rcases h.1.mp hnext with hc | ⟨r, hr, hrne, hin⟩
    · have hc2 : ctxCustId
          (some { role := some "customer", custId := some 5, user := none })
          = some 5 := by decide
      rw [hc2] at hc
      exact absurd hc (by decide)
    · have hr2 : ctxRoleOr
          (some { role := some "customer", custId := some 5, user := none })
          = some "customer" := by decide
      rw [hr2] at hr
      injection hr with hr3
      subst hr3
      exact absurd hin (by decide)
  · exact (allowSelfOrRole_characterization ["staff", "admin"]
      (some { role := some "staff", custId := none, user := none })
      7 (by decide)).1.mpr
      (Or.inr ⟨"staff", by decide, by decide, by decide⟩)

/-- C4: the bearer credential is read from an Authorization header of the
form `Bearer token`; when no truthy bearer token is present the middleware
falls back to the legacy x-auth-token header; and when the selected token
is falsy the middleware responds 401 without passing control downstream. -/
theorem auth_token_extraction :
    ∀ (env : Env) (parse : String → Cred) (now : Int) (r : AuthReq),
      (schemeOf r = some "Bearer" → jsTruthyS (rawBearer r) = true →
        tokenOf r = rawBearer r) ∧
      (¬ (schemeOf r = some "Bearer" ∧ jsTruthyS (rawBearer r) = true) →
        tokenOf r = r.xAuthToken) ∧
      (jsTruthyS (tokenOf r) = false →
        authMw env parse r now = .respond 401 noTokenBody) := by
  intro env parse now r
  refine ⟨?_, ?_, ?_⟩
  · intro h1 h2
    simp [tokenOf, h1, h2]
  · intro h
    rw [tokenOf, if_neg]
    simp only [Bool.and_eq_true, beq_iff_eq]
    exact fun hc => h ⟨hc.1, hc.2⟩
  · intro h
    rcases ht : tokenOf r with _ | t
    · simp [authMw, ht, jsTruthyS]
    · rw [ht] at h
      have htt : t = "" := by
        by_contra hc
        simp [jsTruthyS, hc] at h
      subst htt
      simp [authMw, ht, jsTruthyS]

/-- Witness for C4: a request with neither header is refused with the
no-token 401, and a Bearer header is preferred over the legacy header. -/
theorem auth_token_extraction_witness :
    authMw {} (fun _ => Cred.malformed) { authorization := none, xAuthToken := none } 0
      = .respond 401 noTokenBody ∧
    tokenOf { authorization := some "Bearer abc", xAuthToken := some "zzz" }
      = some "abc" := by
  constructor
  · exact (auth_token_extraction {} (fun _ => Cred.malformed) 0
      { authorization := none, xAuthToken := none }).2.2 (by decide)
  · have h := (auth_token_extraction {} (fun _ => Cred.malformed) 0
      { authorization := some "Bearer abc", xAuthToken := some "zzz" }).1
      (by decide) (by decide)
    simpa using h

/-- C5: for each principal variant, the login failure response for an
unknown email and the failure response for a known email with a wrong
password are the same 400 response with the same Invalid Credentials body,
so the two causes are indistinguishable to the caller. -/
theorem login_failures_indistinguishable :
    ∀ (env : Env) (ttlEnv : Option Int) (enc : IssuedToken → String)
      (jti1 jti2 : String) (now1 now2 : Int)
      (compare : String → String → Bool) (s : Store)
      (e1 p1 e2 p2 : String),
      (findCustomerByEmail s e1 = none →
        ∀ c, findCustomerByEmail s e2 = some c → compare p2 c.password = false →
        loginCustomer env ttlEnv enc jti1 now1 compare s e1 p1
          = loginCustomer env ttlEnv enc jti2 now2 compare s e2 p2 ∧
        loginCustomer env ttlEnv enc jti1 now1 compare s e1 p1
          = { status := 400, body := invalidCredentialsBody }) ∧
      (findStaffByEmail s e1 = none →
        ∀ st, findStaffByEmail s e2 = some st → compare p2 st.password = false →
        loginStaff env ttlEnv enc jti1 now1 compare s e1 p1
          = loginStaff env ttlEnv enc jti2 now2 compare s e2 p2 ∧
        loginStaff env ttlEnv enc jti1 now1 compare s e1 p1
          = { status := 400, body := invalidCredentialsBody }) ∧
      (findAdminByEmail s e1 = none →
        ∀ a, findAdminByEmail s e2 = some a → compare p2 a.password = false →
        loginAdmin env ttlEnv enc jti1 now1 compare s e1 p1
          = loginAdmin env ttlEnv enc jti2 now2 compare s e2 p2 ∧
        loginAdmin env ttlEnv enc jti1 now1 compare s e1 p1
          = { status := 400, body := invalidCredentialsBody }) := by
  intro env ttlEnv enc jti1 jti2 now1 now2 compare s e1 p1 e2 p2
  refine ⟨?_, ?_, ?_⟩
  · intro h1 c h2 h3
    simp [loginCustomer, h1, h2, h3]
  · intro h1 st h2 h3
    simp [loginStaff, h1, h2, h3]
  · intro h1 a h2 h3
    simp [loginAdmin, h1, h2, h3]

/-- Witness for C5 on a one-customer store: unknown email and wrong
password produce the same response. -/
theorem login_failures_indistinguishable_witness :
    loginCustomer {} none (fun _ => "t") "j1" 0 (fun p h => h == "H" ++ p)
        { customers := [{ custId := 1, name := "Ada", email := "ada@x.com"
                        , password := "H" ++ "Str0ng!Pass", role := "customer" }] }
        "nobody@x.com" "whatever"
      = loginCustomer {} none (fun _ => "t") "j2" 5 (fun p h => h == "H" ++ p)
        { customers := [{ custId := 1, name := "Ada", email := "ada@x.com"
                        , password := "H" ++ "Str0ng!Pass", role := "customer" }] }
        "ada@x.com" "wrongPass" :=
  ((login_failures_indistinguishable {} none (fun _ => "t") "j1" "j2" 0 5
      (fun p h => h == "H" ++ p)
      { customers := [{ custId := 1, name := "Ada", email := "ada@x.com"
                      , password := "H" ++ "Str0ng!Pass", role := "customer" }] }
      "nobody@x.com" "whatever" "ada@x.com" "wrongPass").1
    (by decide)
    { custId := 1, name := "Ada", email := "ada@x.com"
    , password := "H" ++ "Str0ng!Pass", role := "customer" }
    (by decide) (by decide)).1

/-- C8 (code bug): the product sort routes validate their field against the
orders allow-list. The product column `price` — given as an example in the
route documentation — is rejected with a validation error, while `total`,
which is not a Product column, passes validation and reaches the query;
the orders routes themselves behave as specified. -/
theorem products_sort_uses_orders_allowlist :
    productsSortRoute "price" "asc" = .validationError ∧
    productColumns.contains "price" = true ∧
    specProductSortFields.contains "price" = true ∧
    productsSortRoute "total" "asc" = .query "total" "ASC" ∧
    productColumns.contains "total" = false ∧
    ordersSortRoute "total" "desc" = .query "total" "DESC" ∧
    ordersSortRoute "garbage" "asc" = .validationError ∧
    productsTwoSortRoute "name" "price" = .validationError := by
  decide

/-- C9 counterexample: with the signing secret unset, `signToken` does not
fail; it returns a token signed with HS512 under the hardcoded default
secret. -/
theorem signToken_no_config_error_cex :
    signToken { JWT_SECRET := none, JWT_ISSUER := none, JWT_AUDIENCE := none }
        none { role := "customer" } none "jti-1" 0
      = { alg := "HS512", key := "dev_secret_change_me"
        , user := { role := "customer" }, iss := "photostore-api"
        , aud := "photostore-users", exp := 604800, jti := "jti-1"
        , sub := none } := by
  decide

/-- C9 (amended): when the signing secret is unset, token issuance falls
back to the default secret `dev_secret_change_me` and still produces an
HS512-signed token; no configuration error is raised. -/
theorem signToken_defaults_when_secret_unset :
    ∀ (env : Env) (ttlEnv : Option Int) (user : TokenUser)
      (subject : Option String) (jti : String) (now : Int),
      env.JWT_SECRET = none →
      (signToken env ttlEnv user subject jti now).key = "dev_secret_change_me" ∧
      (signToken env ttlEnv user subject jti now).alg = "HS512" := by
  intro env ttlEnv user subject jti now h
  simp [signToken, routeJwtSecret, h]

/-- Witness for the amended C9 at a concrete unset-secret environment. -/
theorem signToken_defaults_when_secret_unset_witness :
    (signToken { JWT_SECRET := none, JWT_ISSUER := none, JWT_AUDIENCE := none }
        none { role := "x" } none "j" 0).key = "dev_secret_change_me" :=
  (signToken_defaults_when_secret_unset
    { JWT_SECRET := none, JWT_ISSUER := none, JWT_AUDIENCE := none }
    none { role := "x" } none "j" 0 rfl).1

/-- A token signed with HS512 under the expected secret, unexpired and
carrying the expected issuer and audience verifies successfully. -/
lemma jwtVerify_signed_ok (secret i a : String) (now : Int)
    (claims : JwtClaims) (hiss : claims.iss = some i)
    (haud : claims.aud = some a)
    (hexp : ∀ e, claims.exp = some e → now < e) :
    jwtVerify (.signed "HS512" secret claims) secret (some i) (some a) now
      = .ok claims := by
  rw [jwtVerify]
  have hexp2 : (match claims.exp with
      | some e => decide (e ≤ now)
      | none => false) = false := by
    cases he : claims.exp with
    | none => rfl
    | some e =>
      have hlt := hexp e he
      simp
      omega
  simp [hexp2, hiss, haud]

/-- Verification succeeds exactly for a well-formed token signed with the
allowed algorithm under the expected secret, unexpired, and carrying the
expected issuer and audience claims. -/
lemma jwtVerify_ok_iff (cred : Cred) (secret i a : String) (now : Int) :
    (∃ cl, jwtVerify cred secret (some i) (some a) now = .ok cl) ↔
    (∃ claims, cred = .signed "HS512" secret claims ∧
      claims.iss = some i ∧ claims.aud = some a ∧
      (∀ e, claims.exp = some e → now < e)) := by
  cases cred with
  | malformed => simp [jwtVerify]
  | signed alg key claims =>
    constructor
    · rintro ⟨cl, hcl⟩
      rw [jwtVerify] at hcl
      split_ifs at hcl with h1 h2 h3 h4 h5
      all_goals try (cases hcl)
      have halg : alg = "HS512" := by simpa using h1
      have hkey : key = secret := by
        push_neg at h2
        exact h2
      subst halg
      subst hkey
      refine ⟨claims, rfl, ?_, ?_, ?_⟩
      · by_contra hc
        exact h4 (by simpa using hc)
      · by_contra hc
        exact h5 (by simpa using hc)
      · intro e he
        rw [he] at h3
        simp at h3
        omega
    · rintro ⟨claims2, hcr, hiss, haud, hexp⟩
      rw [hcr]
      exact ⟨claims2, jwtVerify_signed_ok secret i a now claims2 hiss haud hexp⟩

/-- C1: with an issuer and an audience configured, a request carrying a
token passes the auth middleware exactly when the token is a well-formed
JWT signed with HS512 (the single allowed algorithm) under the effective
secret, unexpired, and carrying the configured issuer and audience; every
verification failure is answered by the same generic 401 body, which
carries no information about the cause. -/
theorem auth_verify_characterization :
    ∀ (env : Env) (parse : String → Cred) (r : AuthReq) (now : Int)
      (i a t : String),
      envOr env.JWT_ISSUER = some i → envOr env.JWT_AUDIENCE = some a →
      tokenOf r = some t → t ≠ "" →
      ((∃ u, authMw env parse r now = .next u) ↔
        (∃ claims, parse t = .signed "HS512" (effSecret env) claims ∧
          claims.iss = some i ∧ claims.aud = some a ∧
          (∀ e, claims.exp = some e → now < e))) ∧
      ((¬ ∃ u, authMw env parse r now = .next u) →
        authMw env parse r now = .respond 401 invalidTokenBody) := by
  intro env parse r now i a t hi ha ht htne
  have hmw : authMw env parse r now =
      (match jwtVerify (parse t) (effSecret env) (some i) (some a) now with
       | .ok claims => .next (reqUserOf claims)
       | .error _ => .respond 401 invalidTokenBody) := by
    rw [authMw]
    simp only [ht, jsTruthyS, hi, ha]
    simp [htne]
  rw [hmw]
  constructor
  · rw [← jwtVerify_ok_iff (parse t) (effSecret env) i a now]
    cases hv : jwtVerify (parse t) (effSecret env) (some i) (some a) now with
    | ok cl =>
      constructor
      · intro _
        exact ⟨cl, rfl⟩
      · intro _
        exact ⟨reqUserOf cl, rfl⟩
    | error e =>
      constructor
      · rintro ⟨u, hu⟩
        exact absurd hu (by simp)
      · rintro ⟨cl, hcl⟩
        exact absurd hcl (by simp)
  · cases hv : jwtVerify (parse t) (effSecret env) (some i) (some a) now with
    | ok cl =>
      intro hno
      exact absurd ⟨reqUserOf cl, rfl⟩ hno
    | error e =>
      intro _
      rfl

/-- Witness for C1: a correctly signed, unexpired token with matching
issuer and audience is accepted under a fully configured environment. -/
theorem auth_verify_characterization_witness :
    (∃ u, authMw
        { JWT_SECRET := some "k", JWT_ISSUER := some "iss"
        , JWT_AUDIENCE := some "aud" }
        (fun _ => Cred.signed "HS512" "k"
          { iss := some "iss", aud := some "aud", exp := some 100 })
        { authorization := some "Bearer tok", xAuthToken := none } 0
      = .next u) :=
  ((auth_verify_characterization
      { JWT_SECRET := some "k", JWT_ISSUER := some "iss"
      , JWT_AUDIENCE := some "aud" }
      (fun _ => Cred.signed "HS512" "k"
        { iss := some "iss", aud := some "aud", exp := some 100 })
      { authorization := some "Bearer tok", xAuthToken := none } 0
      "iss" "aud" "tok" (by decide) (by decide) (by decide)
      (by decide)).1).mpr
    ⟨{ iss := some "iss", aud := some "aud", exp := some 100 },
      by decide, rfl, rfl, by
        intro e he
        cases he
        decide⟩

/-- Searching an appended list when the first part has no match searches
the second part. -/
lemma find?_append_of_none {α : Type} (p : α → Bool) {l1 : List α}
    (l2 : List α) (h : l1.find? p = none) :
    (l1 ++ l2).find? p = l2.find? p := by
  induction l1 with
  | nil => rfl
  | cons x xs ih =>
    cases hx : p x with
    | true =>
      rw [List.find?] at h
      rw [hx] at h
      cases h
    | false =>
      rw [List.find?] at h
      rw [hx] at h
      rw [List.cons_append, List.find?]
      rw [hx]
      exact ih h

/-- C7: after a successful customer registration, a second customer
registration whose email is equal up to the case-insensitive normalization
is answered 409 and leaves the store exactly as it was, while a staff
registration with the same email still succeeds and adds one staff row
without touching the customer table. -/
theorem duplicate_email_conflict_per_variant :
    ∀ (env : Env) (ttlEnv : Option Int) (enc : IssuedToken → String)
      (jti1 jti2 jti3 : String) (now1 now2 now3 : Int)
      (hash : String → String) (s : Store)
      (nm1 e1 nm2 e2 pw1 pw2 pw3 : String) (ad1 ph1 ad2 ph2 : Option String),
      normalizeEmail e1 = normalizeEmail e2 →
      findCustomerByEmail s (normalizeEmail e1) = none →
      (registerCustomer env ttlEnv enc jti1 now1 hash s nm1
          (normalizeEmail e1) ad1 ph1 pw1).1.status = 201 ∧
      (registerCustomer env ttlEnv enc jti2 now2 hash
          (registerCustomer env ttlEnv enc jti1 now1 hash s nm1
            (normalizeEmail e1) ad1 ph1 pw1).2 nm2
          (normalizeEmail e2) ad2 ph2 pw2
        = ({ status := 409, body := userAlreadyRegisteredBody },
           (registerCustomer env ttlEnv enc jti1 now1 hash s nm1
             (normalizeEmail e1) ad1 ph1 pw1).2)) ∧
      (findStaffByEmail s (normalizeEmail e2) = none →
        (registerStaff env ttlEnv enc jti3 now3 hash
            (registerCustomer env ttlEnv enc jti1 now1 hash s nm1
              (normalizeEmail e1) ad1 ph1 pw1).2 nm2
            (normalizeEmail e2) pw3).1.status = 201 ∧
        (registerStaff env ttlEnv enc jti3 now3 hash
            (registerCustomer env ttlEnv enc jti1 now1 hash s nm1
              (normalizeEmail e1) ad1 ph1 pw1).2 nm2
            (normalizeEmail e2) pw3).2.staffs.length
          = s.staffs.length + 1 ∧
        (registerStaff env ttlEnv enc jti3 now3 hash
            (registerCustomer env ttlEnv enc jti1 now1 hash s nm1
              (normalizeEmail e1) ad1 ph1 pw1).2 nm2
            (normalizeEmail e2) pw3).2.customers
          = (registerCustomer env ttlEnv enc jti1 now1 hash s nm1
              (normalizeEmail e1) ad1 ph1 pw1).2.customers) := by
  intro env ttlEnv enc jti1 jti2 jti3 now1 now2 now3 hash s nm1 e1 nm2 e2
    pw1 pw2 pw3 ad1 ph1 ad2 ph2 hEq hNone
  rw [← hEq]
  have hreg1 : registerCustomer env ttlEnv enc jti1 now1 hash s nm1
      (normalizeEmail e1) ad1 ph1 pw1
      = ({ status := 201
         , body := authSuccessBody enc
             (signToken env ttlEnv
               { custId := some (nextCustId s), name := nm1
               , email := normalizeEmail e1, role := "customer" }
               (some (toString (nextCustId s))) jti1 now1)
             { custId := some (nextCustId s), name := nm1
             , email := normalizeEmail e1, role := "customer" } },
         { s with customers := s.customers ++
             [{ custId := nextCustId s, name := nm1
              , email := normalizeEmail e1, password := hash pw1
              , role := "customer", address := ad1, phone := ph1 }] }) := by
    rw [registerCustomer, hNone]
  have hfind2 : findCustomerByEmail
      (registerCustomer env ttlEnv enc jti1 now1 hash s nm1
        (normalizeEmail e1) ad1 ph1 pw1).2 (normalizeEmail e1)
      = some { custId := nextCustId s, name := nm1
             , email := normalizeEmail e1, password := hash pw1
             , role := "customer", address := ad1, phone := ph1 } := by
    rw [hreg1]
    rw [findCustomerByEmail]
    simp only
    rw [find?_append_of_none _ _ hNone]
    rw [List.find?]
    simp
  refine ⟨?_, ?_, ?_⟩
  · rw [hreg1]
  · rw [registerCustomer, hfind2]
  · intro hStaffNone
    have hsfind : findStaffByEmail
        (registerCustomer env ttlEnv enc jti1 now1 hash s nm1
          (normalizeEmail e1) ad1 ph1 pw1).2 (normalizeEmail e1)
        = none := by
      rw [hreg1]
      exact hStaffNone
    rw [registerStaff, hsfind]
    refine ⟨rfl, ?_, rfl⟩
    simp [hreg1]

/-- Witness for C7: on an empty store, registering `Ada@X.com` and then
`  ada@x.com  ` (same email up to normalization) yields 409. -/
theorem duplicate_email_conflict_per_variant_witness :
    (registerCustomer {} none (fun _ => "t") "j2" 0 (fun p => "H" ++ p)
        (registerCustomer {} none (fun _ => "t") "j1" 0 (fun p => "H" ++ p)
          {} "Ada" (normalizeEmail "Ada@X.com") none none "Pw1").2
        "Bob" (normalizeEmail " ada@x.com") none none "Pw2")
      = ({ status := 409, body := userAlreadyRegisteredBody },
         (registerCustomer {} none (fun _ => "t") "j1" 0 (fun p => "H" ++ p)
           {} "Ada" (normalizeEmail "Ada@X.com") none none "Pw1").2) :=
  (duplicate_email_conflict_per_variant {} none (fun _ => "t") "j1" "j2" "j3"
    0 0 0 (fun p => "H" ++ p) {} "Ada" "Ada@X.com" "Bob" " ada@x.com"
    "Pw1" "Pw2" "Pw3" none none none none (by decide) (by decide)).2.1

/-- C10: the registration pipeline depends only on the body fields the
schema declares, so two bodies agreeing on the declared fields — however
they differ on undeclared fields such as a caller-supplied role — produce
identical responses and stores; and any row the pipeline creates carries
the constant role `customer`. -/
theorem register_ignores_undeclared_fields :
    ∀ (env : Env) (ttlEnv : Option Int) (enc : IssuedToken → String)
      (jti : String) (now : Int) (hash : String → String)
      (emailFmt : String → Bool) (s : Store) (b1 b2 : RawBody),
      lookupB b1 "name" = lookupB b2 "name" →
      lookupB b1 "email" = lookupB b2 "email" →
      lookupB b1 "password" = lookupB b2 "password" →
      lookupB b1 "address" = lookupB b2 "address" →
      lookupB b1 "phone" = lookupB b2 "phone" →
      (registerCustomerRoute env ttlEnv enc jti now hash emailFmt s b1
        = registerCustomerRoute env ttlEnv enc jti now hash emailFmt s b2) ∧
      (∀ b : RawBody,
        (registerCustomerRoute env ttlEnv enc jti now hash emailFmt s b).2.customers
            = s.customers ∨
        ∃ row : CustomerRow,
          (registerCustomerRoute env ttlEnv enc jti now hash emailFmt s b).2.customers
              = s.customers ++ [row] ∧
          row.role = "customer") := by
  intro env ttlEnv enc jti now hash emailFmt s b1 b2 h1 h2 h3 h4 h5
  constructor
  · have hv : validateCustomerRegister emailFmt b1
        = validateCustomerRegister emailFmt b2 := by
      rw [validateCustomerRegister, validateCustomerRegister, h1, h2, h3, h4, h5]
    rw [registerCustomerRoute, registerCustomerRoute, hv]
  · intro b
    cases hvb : validateCustomerRegister emailFmt b with
    | none =>
      have hr : registerCustomerRoute env ttlEnv enc jti now hash emailFmt s b
          = ({ status := 400, body := validationFailedBody }, s) := by
        rw [registerCustomerRoute, hvb]
      rw [hr]
      exact Or.inl rfl
    | some v =>
      have hroute : registerCustomerRoute env ttlEnv enc jti now hash emailFmt s b
          = registerCustomer env ttlEnv enc jti now hash s v.name v.email
              v.address v.phone v.password := by
        rw [registerCustomerRoute, hvb]
      rw [hroute]
      cases hf : findCustomerByEmail s v.email with
      | some c =>
        have hr : registerCustomer env ttlEnv enc jti now hash s v.name v.email
            v.address v.phone v.password
            = ({ status := 409, body := userAlreadyRegisteredBody }, s) := by
          rw [registerCustomer, hf]
        rw [hr]
        exact Or.inl rfl
      | none =>
        rw [registerCustomer, hf]
        exact Or.inr ⟨_, rfl, rfl⟩

/-- Witness for C10: a registration body carrying an extra undeclared
`role: admin` field behaves exactly like the same body without it. -/
theorem register_ignores_undeclared_fields_witness :
    registerCustomerRoute {} none (fun _ => "t") "j" 0 (fun p => "H" ++ p)
        (fun e => e == "ada@x.com") {}
        [("name", "Ada"), ("email", "ada@x.com"),
         ("password", "Str0ng!Pass"), ("role", "admin")]
      = registerCustomerRoute {} none (fun _ => "t") "j" 0 (fun p => "H" ++ p)
        (fun e => e == "ada@x.com") {}
        [("name", "Ada"), ("email", "ada@x.com"),
         ("password", "Str0ng!Pass")] :=
  (register_ignores_undeclared_fields {} none (fun _ => "t") "j" 0
    (fun p => "H" ++ p) (fun e => e == "ada@x.com") {}
    [("name", "Ada"), ("email", "ada@x.com"),
     ("password", "Str0ng!Pass"), ("role", "admin")]
    [("name", "Ada"), ("email", "ada@x.com"), ("password", "Str0ng!Pass")]
    (by decide) (by decide) (by decide) (by decide) (by decide)).1

lemma hasKey_obj (fs : List (String × Json)) (k : String) :
    (Json.obj fs).hasKey k = Json.fieldsHaveKey fs k := rfl

lemma hasKey_str (s k : String) : (Json.str s).hasKey k = false := rfl

lemma hasKey_num (n : Int) (k : String) : (Json.num n).hasKey k = false := rfl

lemma hasKey_nul (k : String) : Json.nul.hasKey k = false := rfl

lemma fieldsHaveKey_nil (k : String) : Json.fieldsHaveKey [] k = false := rfl

lemma fieldsHaveKey_cons (k' : String) (v : Json)
    (rest : List (String × Json)) (k : String) :
    Json.fieldsHaveKey ((k', v) :: rest) k
      = (k' == k || v.hasKey k || Json.fieldsHaveKey rest k) := rfl

lemma elemsHaveKey_nil (k : String) : Json.elemsHaveKey [] k = false := rfl

lemma elemsHaveKey_cons (e : Json) (rest : List Json) (k : String) :
    Json.elemsHaveKey (e :: rest) k
      = (e.hasKey k || Json.elemsHaveKey rest k) := rfl

lemma hasKey_optStrJson (x : Option String) (k : String) :
    (optStrJson x).hasKey k = false := by
  cases x <;> rfl

lemma hasKey_optIntJson (x : Option Int) (k : String) :
    (optIntJson x).hasKey k = false := by
  cases x <;> rfl

lemma tokenUserJson_no_password (u : TokenUser) :
    (tokenUserJson u).hasKey "password" = false := by
  simp [tokenUserJson, hasKey_obj, fieldsHaveKey_cons, fieldsHaveKey_nil,
    hasKey_optIntJson, hasKey_optStrJson, hasKey_str]

lemma customerPublicJson_no_password (c : CustomerRow) :
    (customerPublicJson c).hasKey "password" = false := by
  simp [customerPublicJson, hasKey_obj, fieldsHaveKey_cons, fieldsHaveKey_nil,
    hasKey_optStrJson, hasKey_str, hasKey_num]

lemma elemsHaveKey_map_public (l : List CustomerRow) :
    Json.elemsHaveKey (l.map customerPublicJson) "password" = false := by
  induction l with
  | nil => rfl
  | cons c cs ih =>
    rw [List.map_cons, elemsHaveKey_cons, customerPublicJson_no_password, ih]
    rfl

lemma authSuccessBody_no_password (enc : IssuedToken → String)
    (tok : IssuedToken) (u : TokenUser) :
    (authSuccessBody enc tok u).hasKey "password" = false := by
  simp [authSuccessBody, hasKey_obj, fieldsHaveKey_cons, fieldsHaveKey_nil,
    hasKey_str, tokenUserJson_no_password]

lemma invalidIdBody_np : invalidIdBody.hasKey "password" = false := by decide

lemma customerNotFoundBody_np :
    customerNotFoundBody.hasKey "password" = false := by decide

lemma emailAlreadyRegisteredBody_np :
    emailAlreadyRegisteredBody.hasKey "password" = false := by decide

lemma userAlreadyRegisteredBody_np :
    userAlreadyRegisteredBody.hasKey "password" = false := by decide

lemma adminAlreadyRegisteredBody_np :
    adminAlreadyRegisteredBody.hasKey "password" = false := by decide

lemma invalidCredentialsBody_np :
    invalidCredentialsBody.hasKey "password" = false := by decide

lemma validationFailedBody_np :
    validationFailedBody.hasKey "password" = false := by decide

/-- C6: no customer read or write path and no registration or login
response body ever mentions a password key, for every store state and
every request. -/
theorem responses_exclude_password :
    ∀ (env : Env) (ttlEnv : Option Int) (enc : IssuedToken → String)
      (jti : String) (now : Int) (hash : String → String)
      (compare : String → String → Bool) (emailFmt : String → Bool)
      (s : Store) (idParam : Option Int) (p : CustomerPatch)
      (name email pw : String) (address phone : Option String) (b : RawBody),
      (customersListHandler s).body.hasKey "password" = false ∧
      (customersGetHandler s idParam).body.hasKey "password" = false ∧
      (customersCreateHandler hash s name email address phone pw).1.body.hasKey
          "password" = false ∧
      (customersUpdateHandler hash s idParam p).1.body.hasKey
          "password" = false ∧
      (customersDeleteHandler s idParam).1.body.hasKey "password" = false ∧
      (registerCustomer env ttlEnv enc jti now hash s name email address
          phone pw).1.body.hasKey "password" = false ∧
      (registerStaff env ttlEnv enc jti now hash s name email pw).1.body.hasKey
          "password" = false ∧
      (registerAdmin env ttlEnv enc jti now hash s name email pw).1.body.hasKey
          "password" = false ∧
      (loginCustomer env ttlEnv enc jti now compare s email pw).body.hasKey
          "password" = false ∧
      (loginStaff env ttlEnv enc jti now compare s email pw).body.hasKey
          "password" = false ∧
      (loginAdmin env ttlEnv enc jti now compare s email pw).body.hasKey
          "password" = false ∧
      (registerCustomerRoute env ttlEnv enc jti now hash emailFmt s
          b).1.body.hasKey "password" = false := by
  intro env ttlEnv enc jti now hash compare emailFmt s idParam p name email
    pw address phone b
  have hreg : ∀ (nm em : String) (ad ph : Option String) (pw2 : String)
      (jti2 : String) (now2 : Int) (s2 : Store),
      (registerCustomer env ttlEnv enc jti2 now2 hash s2 nm em ad
        ph pw2).1.body.hasKey "password" = false := by
    intro nm em ad ph pw2 jti2 now2 s2
    rw [registerCustomer]
    split
    · exact userAlreadyRegisteredBody_np
    · exact authSuccessBody_no_password _ _ _
  refine ⟨?_, ?_, ?_, ?_, ?_, ?_, ?_, ?_, ?_, ?_, ?_, ?_⟩
  · rw [customersListHandler]
    show Json.elemsHaveKey _ _ = false
    exact elemsHaveKey_map_public _
  · rw [customersGetHandler]
    split
    · exact invalidIdBody_np
    · split
      · exact customerNotFoundBody_np
      · exact customerPublicJson_no_password _
  · rw [customersCreateHandler]
    split
    · exact emailAlreadyRegisteredBody_np
    · exact customerPublicJson_no_password _
  · rw [customersUpdateHandler]
    split
    · exact invalidIdBody_np
    · split
      · exact customerNotFoundBody_np
      · split
        · exact customerPublicJson_no_password _
        · exact hasKey_nul _
  · rw [customersDeleteHandler]
    split
    · exact invalidIdBody_np
    · split
      · exact customerNotFoundBody_np
      · exact hasKey_nul _
  · exact hreg name email address phone pw jti now s
  · rw [registerStaff]
    split
    · exact userAlreadyRegisteredBody_np
    · exact authSuccessBody_no_password _ _ _
  · rw [registerAdmin]
    split
    · exact adminAlreadyRegisteredBody_np
    · exact authSuccessBody_no_password _ _ _
  · rw [loginCustomer]
    split
    · exact invalidCredentialsBody_np
    · split
      · exact invalidCredentialsBody_np
      · exact authSuccessBody_no_password _ _ _
  · rw [loginStaff]
    split
    · exact invalidCredentialsBody_np
    · split
      · exact invalidCredentialsBody_np
      · exact authSuccessBody_no_password _ _ _
  · rw [loginAdmin]
    split
    · exact invalidCredentialsBody_np
    · split
      · exact invalidCredentialsBody_np
      · exact authSuccessBody_no_password _ _ _
  · rw [registerCustomerRoute]
    split
    · exact validationFailedBody_np
    · exact hreg _ _ _ _ _ _ _ _

end Photostore
